import Mathlib

/-
Verification of the cover-canvas scene of `src/components/hero/CoverHero.tsx`
(the fabric.js based hero component with image placement, preset switching,
reset, viewport fitting and PNG export).

Numbers are modelled as rationals (JS numbers on the code's value ranges),
`Math.floor` as `Int.floor`, `Math.random()` as an explicit parameter
`r ∈ [0,1)`, and a decoded image's possibly-missing intrinsic dimensions as
`Option ℚ`.
-/

/-! ## AssetPlacementEngine: `addImageToCanvas` maths (CoverHero.tsx lines 675-719) -/

/-- JS `img.width || 1`: a missing (`undefined`) or zero intrinsic dimension
falls back to `1`. -/
def fallbackDim : Option ℚ → ℚ
  | none => 1
  | some x => if x = 0 then 1 else x

/-- `const scale = Math.min(maxW / iw, maxH / ih, 1)` with
`maxW = canvasWidth * 0.32`, `maxH = canvasHeight * 0.32`. -/
def spriteScale (W H iw ih : ℚ) : ℚ :=
  min (min (W * (8/25) / iw) (H * (8/25) / ih)) 1

/-- `renderedW = iw * scale`. -/
def renderedW (W H iw ih : ℚ) : ℚ := iw * spriteScale W H iw ih

/-- `renderedH = ih * scale`. -/
def renderedH (W H iw ih : ℚ) : ℚ := ih * spriteScale W H iw ih

/-- `randomInRange(min, max) = Math.random() * (Math.max(min, max) - min) + min`,
with the random sample `r` made explicit. -/
def randomInRange (lo hi r : ℚ) : ℚ := r * (max lo hi - lo) + lo

/-- `left: randomInRange(minLeft, maxLeft)` with
`minLeft = renderedW / 2 + margin`, `maxLeft = canvasWidth - renderedW / 2 - margin`,
`margin = 24`. -/
def spriteLeft (W H iw ih r : ℚ) : ℚ :=
  randomInRange (renderedW W H iw ih / 2 + 24) (W - renderedW W H iw ih / 2 - 24) r

/-- `top: randomInRange(minTop, maxTop)` with
`minTop = renderedH / 2 + margin`, `maxTop = canvasHeight - renderedH / 2 - margin`. -/
def spriteTop (W H iw ih r : ℚ) : ℚ :=
  randomInRange (renderedH W H iw ih / 2 + 24) (H - renderedH W H iw ih / 2 - 24) r

/-! ## Scene state: text labels, presets, layout, reset
(CoverHero.tsx lines 294-322, 481-507, 559-626) -/

/-- The closed preset key set (`type PresetKey = "ux" | "performance" | "interaction"`). -/
inductive PresetKey
  | ux
  | performance
  | interaction
deriving DecidableEq

/-- The PRESETS table: role ↦ (title, subtitle) text pair. -/
def PRESETS : PresetKey → String × String
  | PresetKey.ux =>
      ("구조로 설계하는 UI", "요구사항을 정리해 확장 가능한 인터페이스로 구현합니다.")
  | PresetKey.performance =>
      ("운영 환경 최적화", "리소스 통합과 구조 개선을 통해 비용과 성능을 개선합니다.")
  | PresetKey.interaction =>
      ("사용자 인터랙션 설계", "Canvas 기반 UI와 복잡한 상호작용을 직접 구현합니다.")

/-- Title fill color by theme (`isDark ? "rgba(255,255,255,0.96)" : "rgba(18,22,31,0.95)"`). -/
def titleFill (isDark : Bool) : String :=
  if isDark then "rgba(255,255,255,0.96)" else "rgba(18,22,31,0.95)"

/-- Subtitle fill color by theme. -/
def subtitleFill (isDark : Bool) : String :=
  if isDark then "rgba(255,255,255,0.8)" else "rgba(18,22,31,0.72)"

/-- A fabric Textbox as far as the claims are concerned: text content, geometry
(left/top/width), transform (angle, scaleX, scaleY) and fill. -/
structure TextLabel where
  text : String
  left : ℚ
  top : ℚ
  width : ℚ
  angle : ℚ
  scaleX : ℚ
  scaleY : ℚ
  fill : String
deriving DecidableEq

/-- Identity of the background rectangle created at init. -/
def bgId : Nat := 0

/-- Identity of the title Textbox. -/
def titleId : Nat := 1

/-- Identity of the subtitle Textbox. -/
def subtitleId : Nat := 2

/-- The `reset` protection test `obj !== bg && obj !== t && obj !== s`,
phrased over object identities. -/
def isProtected (o : Nat) : Bool :=
  o == bgId || o == titleId || o == subtitleId

/-- The live scene: object identities in fabric stacking order (index 0 is the
back), the active selection, the current preset, both labels, the backing-store
size, the zoom factor and the theme flag. -/
structure SceneState where
  objects : List Nat
  active : Option Nat
  preset : PresetKey
  title : TextLabel
  subtitle : TextLabel
  canvasWidth : ℚ
  canvasHeight : ℚ
  zoom : ℚ
  isDark : Bool
deriving DecidableEq

/-- getVisibleCanvasSize width: `canvas.getWidth() / (canvas.getZoom?.() || 1)`. -/
def visibleW (s : SceneState) : ℚ :=
  s.canvasWidth / (if s.zoom = 0 then 1 else s.zoom)

/-- getVisibleCanvasSize height. -/
def visibleH (s : SceneState) : ℚ :=
  s.canvasHeight / (if s.zoom = 0 then 1 else s.zoom)

/-- placeTextObjects: guard `if (!cw || !ch) return;`, then
`padX = Math.max(48, Math.floor(cw * 0.08))`,
`top = Math.max(72, Math.floor(ch * 0.18))`,
title at (padX, top) with width `Math.min(980, Math.floor(cw - padX * 2))`,
subtitle at (padX, top + 70) with width `Math.min(900, Math.floor(cw - padX * 2))`. -/
def placeTextObjects (s : SceneState) : SceneState :=
  if visibleW s = 0 ∨ visibleH s = 0 then s
  else
    let padX : ℚ := max 48 (⌊visibleW s * (2/25)⌋ : ℚ)
    let topOff : ℚ := max 72 (⌊visibleH s * (9/50)⌋ : ℚ)
    let newTitle := { s.title with
                      left := padX
                      top := topOff
                      width := min 980 (⌊visibleW s - padX * 2⌋ : ℚ) }
    let newSubtitle := { s.subtitle with
                         left := padX
                         top := topOff + 70
                         width := min 900 (⌊visibleW s - padX * 2⌋ : ℚ) }
    { s with title := newTitle, subtitle := newSubtitle }

/-- applyPreset: store the preset key and overwrite only the two labels' text
content (`t.set("text", ...)`, `s.set("text", ...)`). -/
def applyPreset (k : PresetKey) (s : SceneState) : SceneState :=
  { s with preset := k,
           title := { s.title with text := (PRESETS k).1 },
           subtitle := { s.subtitle with text := (PRESETS k).2 } }

/-- The removal loop of `reset`: fabric v5 `getObjects()` returns a shallow copy
of the object array, so the loop iterates over that snapshot while removing
(`c.remove`, first occurrence) every non-protected object from the live list. -/
def removeLoop : List Nat → List Nat → List Nat
  | [], cur => cur
  | o :: snap, cur => removeLoop snap (if isProtected o then cur else cur.erase o)

/-- reset: remove every object other than bg/title/subtitle, restore both labels'
text to the "ux" preset, angle 0, scale 1 and the theme fill, discard the active
selection, and re-run the lightweight text layout (`layoutRef.current?.()`). -/
def reset (s : SceneState) : SceneState :=
  let objs := removeLoop s.objects s.objects
  let t := { s.title with
             text := (PRESETS PresetKey.ux).1
             angle := 0
             scaleX := 1
             scaleY := 1
             fill := titleFill s.isDark }
  let st := { s.subtitle with
              text := (PRESETS PresetKey.ux).2
              angle := 0
              scaleX := 1
              scaleY := 1
              fill := subtitleFill s.isDark }
  placeTextObjects
    { s with objects := objs, active := none, preset := PresetKey.ux,
             title := t, subtitle := st }

/-! ## ExportRenderer: the call sequence of `exportPNG`
(CoverHero.tsx lines 628-665) -/

/-- The fabric API calls `exportPNG` performs, in order. -/
inductive ExpOp
  | addBg
  | sendBgBack
  | discardActive
  | requestRender
  | capture
  | removeBg
deriving DecidableEq

/-- A canvas as `exportPNG` touches it: object identities in stacking order and
the active selection. -/
structure ExpCanvas where
  objects : List Nat
  active : Option Nat
deriving DecidableEq

/-- The operation sequence of `exportPNG`: `c.add(exportBg)`,
`c.sendToBack(exportBg)`, `c.discardActiveObject()`, `c.requestRenderAll()`,
`c.toDataURL(...)`, `c.remove(exportBg)`, `c.requestRenderAll()`. -/
def exportSteps : List ExpOp :=
  [ExpOp.addBg, ExpOp.sendBgBack, ExpOp.discardActive, ExpOp.requestRender,
   ExpOp.capture, ExpOp.removeBg, ExpOp.requestRender]

/-- State effect of each operation; `bg` is the identity of the temporary
export background rectangle. -/
def applyExportOp (bg : Nat) (c : ExpCanvas) : ExpOp → ExpCanvas
  | ExpOp.addBg => { c with objects := c.objects ++ [bg] }
  | ExpOp.sendBgBack => { c with objects := bg :: c.objects.erase bg }
  | ExpOp.discardActive => { c with active := none }
  | ExpOp.requestRender => c
  | ExpOp.capture => c
  | ExpOp.removeBg => { c with objects := c.objects.erase bg }

/-- exportPNG as a state transformer: run the operation sequence. -/
def exportPNG (c : ExpCanvas) (bg : Nat) : ExpCanvas :=
  exportSteps.foldl (applyExportOp bg) c

/-- Operations that insert the temporary background (add + send-to-back). -/
def isInsertOp : ExpOp → Bool
  | ExpOp.addBg => true
  | ExpOp.sendBgBack => true
  | _ => false

/-- The serialization of the canvas to a PNG. -/
def isCaptureOp : ExpOp → Bool
  | ExpOp.capture => true
  | _ => false

/-- The removal of the temporary background. -/
def isRemoveOp : ExpOp → Bool
  | ExpOp.removeBg => true
  | _ => false

/-- No render request occurs strictly between an operation satisfying `p` and a
later operation satisfying `q`. -/
def noRenderBetween (tr : List ExpOp) (p q : ExpOp → Bool) : Prop :=
  ∀ i j k : Fin tr.length, i < j → j < k →
    p (tr.get i) = true → q (tr.get k) = true → tr.get j ≠ ExpOp.requestRender

/-- Number of render requests strictly between an operation satisfying `p` and a
later operation satisfying `q`. -/
def rendersBetween (tr : List ExpOp) (p q : ExpOp → Bool) : Nat :=
  ((List.finRange tr.length).filter (fun j =>
    (tr.get j == ExpOp.requestRender) &&
    ((List.finRange tr.length).any (fun i => decide (i < j) && p (tr.get i))) &&
    ((List.finRange tr.length).any (fun k => decide (j < k) && q (tr.get k))))).length

/-! ## ViewportLayoutEngine: `fitCanvasToWrap` (CoverHero.tsx lines 509-532) -/

/-- The individual steps a fit/resize pass can perform. -/
inductive FitEffect
  | assignElWidth
  | assignElHeight
  | setCssSize
  | setCanvasWidth
  | setCanvasHeight
  | setZoom
  | setBgBounds
  | placeText
deriving DecidableEq

/-- Inputs of one fit pass: the canvas element's current backing-store size, the
container rectangle and the raw `window.devicePixelRatio`. -/
structure FitState where
  elWidth : ℤ
  elHeight : ℤ
  rectW : ℚ
  rectH : ℚ
  rawDpr : ℚ
deriving DecidableEq

/-- Effective device pixel ratio: `Math.min(window.devicePixelRatio || 1, 2)`. -/
def dprOf (raw : ℚ) : ℚ := min (if raw = 0 then 1 else raw) 2

/-- Clamped visible width: `Math.max(320, Math.floor(rect.width))`. -/
def wCssOf (rectW : ℚ) : ℤ := max 320 ⌊rectW⌋

/-- Clamped visible height: `Math.max(360, Math.floor(rect.height))`. -/
def hCssOf (rectH : ℚ) : ℤ := max 360 ⌊rectH⌋

/-- New physical width: `Math.floor(wCss * dpr)`. -/
def nextWidthOf (rectW raw : ℚ) : ℤ := ⌊(wCssOf rectW : ℚ) * dprOf raw⌋

/-- New physical height: `Math.floor(hCss * dpr)`. -/
def nextHeightOf (rectH raw : ℚ) : ℤ := ⌊(hCssOf rectH : ℚ) * dprOf raw⌋

/-- The steps one call of `fitCanvasToWrap` performs: the canvas element's
width/height assignments are guarded by `if (el.width !== nextWidth)` /
`if (el.height !== nextHeight)`; the CSS size, `c.setWidth`, `c.setHeight`,
`c.setZoom(dpr)`, the background bounds and `placeTextObjects()` run on every
pass. -/
def fitEffects (st : FitState) : List FitEffect :=
  (if st.elWidth ≠ nextWidthOf st.rectW st.rawDpr
     then [FitEffect.assignElWidth] else []) ++
  (if st.elHeight ≠ nextHeightOf st.rectH st.rawDpr
     then [FitEffect.assignElHeight] else []) ++
  [FitEffect.setCssSize, FitEffect.setCanvasWidth, FitEffect.setCanvasHeight,
   FitEffect.setZoom, FitEffect.setBgBounds, FitEffect.placeText]

/-! ## Concrete sample states used by the witnesses and counterexamples -/

/-- A title label in its initial configuration. -/
def sampleTitle : TextLabel :=
  { text := "구조로 설계하는 UI", left := 80, top := 120, width := 900,
    angle := 0, scaleX := 1, scaleY := 1, fill := "rgba(255,255,255,0.96)" }

/-- A subtitle label in its initial configuration. -/
def sampleSubtitle : TextLabel :=
  { text := "요구사항을 정리해 확장 가능한 인터페이스로 구현합니다.",
    left := 80, top := 210, width := 860,
    angle := 0, scaleX := 1, scaleY := 1, fill := "rgba(255,255,255,0.8)" }

/-- A live scene on a 800×600 visible viewport at dpr 2, with three image
sprites added and the user having dragged/rotated the labels. -/
def resetSample : SceneState :=
  { objects := [0, 1, 2, 10, 11, 12], active := some 10,
    preset := PresetKey.interaction,
    title := { sampleTitle with
               angle := 15
               scaleX := 2
               scaleY := 2
               text := "사용자 인터랙션 설계" },
    subtitle := { sampleSubtitle with angle := -5 },
    canvasWidth := 1600, canvasHeight := 1200, zoom := 2, isDark := true }

/-- A canvas holding the three protected objects, subtitle selected. -/
def expSample : ExpCanvas := { objects := [0, 1, 2], active := some 2 }

/-- A fit pass whose recomputed physical size equals the current one. -/
def fitSample : FitState :=
  { elWidth := 320, elHeight := 360, rectW := 320, rectH := 360, rawDpr := 1 }

/-! ## Helper lemmas about the placement maths -/

theorem fallbackDim_pos (w : Option ℚ) (hw : ∀ x, w = some x → 0 ≤ x) :
    0 < fallbackDim w := by
  cases w with
  | none => norm_num [fallbackDim]
  | some x =>
    have hx : 0 ≤ x := hw x rfl
    by_cases h0 : x = 0
    · simp [fallbackDim, h0]
    · simpa [fallbackDim, h0] using lt_of_le_of_ne hx (Ne.symm h0)

theorem spriteScale_nonneg (W H iw ih : ℚ) (hW : 0 ≤ W) (hH : 0 ≤ H)
    (hiw : 0 < iw) (hih : 0 < ih) : 0 ≤ spriteScale W H iw ih := by
  have h1 : 0 ≤ W * (8/25) / iw := by positivity
  have h2 : 0 ≤ H * (8/25) / ih := by positivity
  have h3 : (0:ℚ) ≤ 1 := by norm_num
  exact le_min (le_min h1 h2) h3

theorem spriteScale_le_one (W H iw ih : ℚ) : spriteScale W H iw ih ≤ 1 :=
  min_le_right _ _

theorem renderedW_le (W H iw ih : ℚ) (hiw : 0 < iw) :
    renderedW W H iw ih ≤ W * (8/25) := by
  have hle : spriteScale W H iw ih ≤ W * (8/25) / iw :=
    le_trans (min_le_left _ _) (min_le_left _ _)
  have := mul_le_mul_of_nonneg_left hle (le_of_lt hiw)
  calc renderedW W H iw ih = iw * spriteScale W H iw ih := rfl
    _ ≤ iw * (W * (8/25) / iw) := this
    _ = W * (8/25) := by field_simp; ring

theorem renderedH_le (W H iw ih : ℚ) (hih : 0 < ih) :
    renderedH W H iw ih ≤ H * (8/25) := by
  have hle : spriteScale W H iw ih ≤ H * (8/25) / ih :=
    le_trans (min_le_left _ _) (min_le_right _ _)
  have := mul_le_mul_of_nonneg_left hle (le_of_lt hih)
  calc renderedH W H iw ih = ih * spriteScale W H iw ih := rfl
    _ ≤ ih * (H * (8/25) / ih) := this
    _ = H * (8/25) := by field_simp; ring

theorem randomInRange_mem (lo hi r : ℚ) (hle : lo ≤ hi) (hr0 : 0 ≤ r) (hr1 : r < 1) :
    lo ≤ randomInRange lo hi r ∧ randomInRange lo hi r ≤ hi := by
  have hmax : max lo hi = hi := max_eq_right hle
  constructor
  · have : 0 ≤ r * (hi - lo) := mul_nonneg hr0 (by linarith)
    simp only [randomInRange, hmax]
    linarith
  · have : r * (hi - lo) ≤ 1 * (hi - lo) :=
      mul_le_mul_of_nonneg_right (le_of_lt hr1) (by linarith)
    simp only [randomInRange, hmax]
    linarith

/-- C1: for every visible canvas size `W ≥ 320`, `H ≥ 360`, every decoded image
(intrinsic dimensions modelled as `Option ℚ`, nonnegative when present) and every
pair of random samples in `[0,1)`, the sprite inserted by `addImageToCanvas` has
its axis-aligned bounding box inside the viewport shrunk by the 24-unit margin,
hence inside `[0, W] × [0, H]`. -/
theorem addImage_bbox_within_margins (W H : ℚ) (w h : Option ℚ) (r1 r2 : ℚ)
    (hW : 320 ≤ W) (hH : 360 ≤ H)
    (hw : ∀ x, w = some x → 0 ≤ x) (hh : ∀ x, h = some x → 0 ≤ x)
    (hr1 : 0 ≤ r1) (hr1' : r1 < 1) (hr2 : 0 ≤ r2) (hr2' : r2 < 1) :
    ((24 ≤ spriteLeft W H (fallbackDim w) (fallbackDim h) r1 -
        renderedW W H (fallbackDim w) (fallbackDim h) / 2 ∧
      spriteLeft W H (fallbackDim w) (fallbackDim h) r1 +
        renderedW W H (fallbackDim w) (fallbackDim h) / 2 ≤ W - 24) ∧
     (24 ≤ spriteTop W H (fallbackDim w) (fallbackDim h) r2 -
        renderedH W H (fallbackDim w) (fallbackDim h) / 2 ∧
      spriteTop W H (fallbackDim w) (fallbackDim h) r2 +
        renderedH W H (fallbackDim w) (fallbackDim h) / 2 ≤ H - 24)) ∧
    ((0 ≤ spriteLeft W H (fallbackDim w) (fallbackDim h) r1 -
        renderedW W H (fallbackDim w) (fallbackDim h) / 2 ∧
      spriteLeft W H (fallbackDim w) (fallbackDim h) r1 +
        renderedW W H (fallbackDim w) (fallbackDim h) / 2 ≤ W) ∧
     (0 ≤ spriteTop W H (fallbackDim w) (fallbackDim h) r2 -
        renderedH W H (fallbackDim w) (fallbackDim h) / 2 ∧
      spriteTop W H (fallbackDim w) (fallbackDim h) r2 +
        renderedH W H (fallbackDim w) (fallbackDim h) / 2 ≤ H)) := by
  have hiw : 0 < fallbackDim w := fallbackDim_pos w hw
  have hih : 0 < fallbackDim h := fallbackDim_pos h hh
  have hsc : 0 ≤ spriteScale W H (fallbackDim w) (fallbackDim h) :=
    spriteScale_nonneg W H _ _ (by linarith) (by linarith) hiw hih
  have hrw0 : 0 ≤ renderedW W H (fallbackDim w) (fallbackDim h) :=
    mul_nonneg hiw.le hsc
  have hrh0 : 0 ≤ renderedH W H (fallbackDim w) (fallbackDim h) :=
    mul_nonneg hih.le hsc
  have hrwle : renderedW W H (fallbackDim w) (fallbackDim h) ≤ W * (8/25) :=
    renderedW_le W H _ _ hiw
  have hrhle : renderedH W H (fallbackDim w) (fallbackDim h) ≤ H * (8/25) :=
    renderedH_le W H _ _ hih
  have hloW : renderedW W H (fallbackDim w) (fallbackDim h) / 2 + 24 ≤
      W - renderedW W H (fallbackDim w) (fallbackDim h) / 2 - 24 := by linarith
  have hloH : renderedH W H (fallbackDim w) (fallbackDim h) / 2 + 24 ≤
      H - renderedH W H (fallbackDim w) (fallbackDim h) / 2 - 24 := by linarith
  obtain ⟨hl1, hl2⟩ := randomInRange_mem _ _ r1 hloW hr1 hr1'
  obtain ⟨ht1, ht2⟩ := randomInRange_mem _ _ r2 hloH hr2 hr2'
  have heL : spriteLeft W H (fallbackDim w) (fallbackDim h) r1 =
      randomInRange (renderedW W H (fallbackDim w) (fallbackDim h) / 2 + 24)
        (W - renderedW W H (fallbackDim w) (fallbackDim h) / 2 - 24) r1 := rfl
  have heT : spriteTop W H (fallbackDim w) (fallbackDim h) r2 =
      randomInRange (renderedH W H (fallbackDim w) (fallbackDim h) / 2 + 24)
        (H - renderedH W H (fallbackDim w) (fallbackDim h) / 2 - 24) r2 := rfl
  rw [heL] at *
  rw [heT] at *
  exact ⟨⟨⟨by linarith, by linarith⟩, ⟨by linarith, by linarith⟩⟩,
         ⟨⟨by linarith, by linarith⟩, ⟨by linarith, by linarith⟩⟩⟩

/-- Witness for C1, at the spec scenario: an image of intrinsic size 4000×3000
placed into an 800×600 visible viewport with random samples 0 and 1/2. -/
theorem addImage_bbox_within_margins_witness :
    (0:ℚ) ≤ 0 ∧ (1/2 : ℚ) < 1 ∧
    24 ≤ spriteLeft 800 600 (fallbackDim (some 4000)) (fallbackDim (some 3000)) 0 -
        renderedW 800 600 (fallbackDim (some 4000)) (fallbackDim (some 3000)) / 2 :=
  ⟨le_refl 0, by norm_num,
   (addImage_bbox_within_margins 800 600 (some 4000) (some 3000) 0 (1/2)
      (by norm_num) (by norm_num)
      (by intro x hx; injection hx with h'; subst h'; norm_num)
      (by intro x hx; injection hx with h'; subst h'; norm_num)
      (le_refl 0) (by norm_num) (by norm_num) (by norm_num)).1.1.1⟩

/-- C9: in `randomInRange`, whenever the lower bound exceeds the upper bound the
sampled coordinate is exactly the larger bound (the range collapses to a point);
otherwise the sample stays inside `[lo, hi]` — the range is never inverted. -/
theorem randomInRange_collapse (lo hi r : ℚ) (hr0 : 0 ≤ r) (hr1 : r < 1) :
    (hi < lo → randomInRange lo hi r = max lo hi) ∧
    (lo ≤ hi → lo ≤ randomInRange lo hi r ∧ randomInRange lo hi r ≤ hi) := by
  constructor
  · intro hlt
    have hmax : max lo hi = lo := max_eq_left hlt.le
    simp [randomInRange, hmax, sub_self]
  · intro hle
    exact randomInRange_mem lo hi r hle hr0 hr1

/-- Witness for C9, at a collapsed range: lower bound 1000, upper bound 0. -/
theorem randomInRange_collapse_witness :
    (0:ℚ) ≤ 1/2 ∧ (0:ℚ) < 1000 ∧ randomInRange 1000 0 (1/2) = max 1000 0 :=
  ⟨by norm_num, by norm_num,
   (randomInRange_collapse 1000 0 (1/2) (by norm_num) (by norm_num)).1 (by norm_num)⟩

/-- C10: a missing or zero intrinsic dimension is replaced by 1, so the scale
`min(maxW/iw, maxH/ih, 1)` never divides by zero and is positive and at most 1
for any positive visible canvas size. -/
theorem fallback_scale_positive (w h : Option ℚ) (W H : ℚ) (hW : 0 < W) (hH : 0 < H)
    (hw : ∀ x, w = some x → 0 ≤ x) (hh : ∀ x, h = some x → 0 ≤ x) :
    ((w = none ∨ w = some 0) → fallbackDim w = 1) ∧
    ((h = none ∨ h = some 0) → fallbackDim h = 1) ∧
    0 < fallbackDim w ∧ 0 < fallbackDim h ∧
    0 < spriteScale W H (fallbackDim w) (fallbackDim h) ∧
    spriteScale W H (fallbackDim w) (fallbackDim h) ≤ 1 := by
  have hiw := fallbackDim_pos w hw
  have hih := fallbackDim_pos h hh
  refine ⟨?_, ?_, hiw, hih, ?_, spriteScale_le_one _ _ _ _⟩
  · rintro (rfl | rfl) <;> simp [fallbackDim]
  · rintro (rfl | rfl) <;> simp [fallbackDim]
  · have h1 : 0 < W * (8/25) / fallbackDim w := by positivity
    have h2 : 0 < H * (8/25) / fallbackDim h := by positivity
    exact lt_min (lt_min h1 h2) one_pos

/-- Witness for C10: an image reporting no width and zero height, in an 800×600
visible viewport. -/
theorem fallback_scale_positive_witness :
    (0:ℚ) < 800 ∧ fallbackDim (none : Option ℚ) = 1 ∧
    0 < spriteScale 800 600 (fallbackDim (none : Option ℚ)) (fallbackDim (some 0)) :=
  ⟨by norm_num,
   (fallback_scale_positive none (some 0) 800 600 (by norm_num) (by norm_num)
      (by intro x hx; exact Option.noConfusion hx)
      (by intro x hx; injection hx with h'; subst h'; exact le_refl 0)).1 (Or.inl rfl),
   (fallback_scale_positive none (some 0) 800 600 (by norm_num) (by norm_num)
      (by intro x hx; exact Option.noConfusion hx)
      (by intro x hx; injection hx with h'; subst h'; exact le_refl 0)).2.2.2.2.1⟩

/-! ## Helper lemmas about layout, reset, export and fit -/

theorem placeTextObjects_spec (s : SceneState)
    (h1 : ¬(visibleW s = 0 ∨ visibleH s = 0)) :
    (placeTextObjects s).title.left = max 48 (⌊visibleW s * (2/25)⌋ : ℚ) ∧
    (placeTextObjects s).title.top = max 72 (⌊visibleH s * (9/50)⌋ : ℚ) ∧
    (placeTextObjects s).title.width =
      min 980 (⌊visibleW s - max 48 (⌊visibleW s * (2/25)⌋ : ℚ) * 2⌋ : ℚ) ∧
    (placeTextObjects s).subtitle.left = max 48 (⌊visibleW s * (2/25)⌋ : ℚ) ∧
    (placeTextObjects s).subtitle.top = max 72 (⌊visibleH s * (9/50)⌋ : ℚ) + 70 ∧
    (placeTextObjects s).subtitle.width =
      min 900 (⌊visibleW s - max 48 (⌊visibleW s * (2/25)⌋ : ℚ) * 2⌋ : ℚ) := by
  unfold placeTextObjects
  rw [if_neg h1]
  exact ⟨rfl, rfl, rfl, rfl, rfl, rfl⟩

theorem placeTextObjects_preserves (s : SceneState) :
    (placeTextObjects s).objects = s.objects ∧
    (placeTextObjects s).canvasWidth = s.canvasWidth ∧
    (placeTextObjects s).canvasHeight = s.canvasHeight ∧
    (placeTextObjects s).zoom = s.zoom ∧
    (placeTextObjects s).title.text = s.title.text ∧
    (placeTextObjects s).title.angle = s.title.angle ∧
    (placeTextObjects s).title.scaleX = s.title.scaleX ∧
    (placeTextObjects s).title.scaleY = s.title.scaleY ∧
    (placeTextObjects s).title.fill = s.title.fill ∧
    (placeTextObjects s).subtitle.text = s.subtitle.text ∧
    (placeTextObjects s).subtitle.angle = s.subtitle.angle ∧
    (placeTextObjects s).subtitle.scaleX = s.subtitle.scaleX ∧
    (placeTextObjects s).subtitle.scaleY = s.subtitle.scaleY ∧
    (placeTextObjects s).subtitle.fill = s.subtitle.fill := by
  unfold placeTextObjects
  split
  · exact ⟨rfl, rfl, rfl, rfl, rfl, rfl, rfl, rfl, rfl, rfl, rfl, rfl, rfl, rfl⟩
  · exact ⟨rfl, rfl, rfl, rfl, rfl, rfl, rfl, rfl, rfl, rfl, rfl, rfl, rfl, rfl⟩

theorem visibleW_placeTextObjects (s : SceneState) :
    visibleW (placeTextObjects s) = visibleW s := by
  unfold visibleW placeTextObjects
  split <;> rfl

theorem visibleH_placeTextObjects (s : SceneState) :
    visibleH (placeTextObjects s) = visibleH s := by
  unfold visibleH placeTextObjects
  split <;> rfl

theorem removeLoop_eq_filter (snap : List Nat) :
    ∀ cur : List Nat, cur.Nodup →
      removeLoop snap cur =
        cur.filter (fun o => isProtected o || !(decide (o ∈ snap))) := by
  induction snap with
  | nil =>
    intro cur _
    simp [removeLoop]
  | cons a snap ih =>
    intro cur hcur
    by_cases ha : isProtected a = true
    · rw [removeLoop, if_pos ha, ih cur hcur]
      refine List.filter_congr ?_
      intro o _
      by_cases hoa : o = a
      · subst hoa
        simp [ha]
      · simp [List.mem_cons, hoa]
    · have ha' : isProtected a = false := by
        revert ha
        cases isProtected a <;> simp
      rw [removeLoop, if_neg ha, ih (cur.erase a) (hcur.erase a),
          List.Nodup.erase_eq_filter hcur a, List.filter_filter]
      refine List.filter_congr ?_
      intro o _
      by_cases hoa : o = a
      · subst hoa
        simp [ha', List.mem_cons]
      · simp [List.mem_cons, hoa]

theorem reset_eq (s : SceneState) :
    reset s = placeTextObjects
      { s with objects := removeLoop s.objects s.objects
               active := none
               preset := PresetKey.ux
               title := { s.title with
                          text := (PRESETS PresetKey.ux).1
                          angle := 0
                          scaleX := 1
                          scaleY := 1
                          fill := titleFill s.isDark }
               subtitle := { s.subtitle with
                             text := (PRESETS PresetKey.ux).2
                             angle := 0
                             scaleX := 1
                             scaleY := 1
                             fill := subtitleFill s.isDark } } := rfl

/-- C8: running the text-placement step twice for a fixed viewport yields exactly
the same geometry (left, top, width of title and subtitle) as running it once —
the placement is recomputed from scratch, not incrementally. -/
theorem placeTextObjects_idempotent (s : SceneState) :
    (placeTextObjects (placeTextObjects s)).title.left =
      (placeTextObjects s).title.left ∧
    (placeTextObjects (placeTextObjects s)).title.top =
      (placeTextObjects s).title.top ∧
    (placeTextObjects (placeTextObjects s)).title.width =
      (placeTextObjects s).title.width ∧
    (placeTextObjects (placeTextObjects s)).subtitle.left =
      (placeTextObjects s).subtitle.left ∧
    (placeTextObjects (placeTextObjects s)).subtitle.top =
      (placeTextObjects s).subtitle.top ∧
    (placeTextObjects (placeTextObjects s)).subtitle.width =
      (placeTextObjects s).subtitle.width := by
  by_cases h : visibleW s = 0 ∨ visibleH s = 0
  · have he : placeTextObjects s = s := by
      unfold placeTextObjects
      rw [if_pos h]
    simp [he]
  · have h2 : ¬(visibleW (placeTextObjects s) = 0 ∨
        visibleH (placeTextObjects s) = 0) := by
      rw [visibleW_placeTextObjects, visibleH_placeTextObjects]
      exact h
    obtain ⟨a1, a2, a3, a4, a5, a6⟩ := placeTextObjects_spec s h
    obtain ⟨b1, b2, b3, b4, b5, b6⟩ := placeTextObjects_spec (placeTextObjects s) h2
    simp only [visibleW_placeTextObjects, visibleH_placeTextObjects] at b1 b2 b3 b4 b5 b6
    exact ⟨b1.trans a1.symm, b2.trans a2.symm, b3.trans a3.symm,
           b4.trans a4.symm, b5.trans a5.symm, b6.trans a6.symm⟩

/-- C6: for every preset role and scene state, `applyPreset` changes only the two
labels' text content; position, scale, rotation angle and fill of both labels are
identical before and after the call. -/
theorem applyPreset_preserves_geometry (k : PresetKey) (s : SceneState) :
    (applyPreset k s).title.left = s.title.left ∧
    (applyPreset k s).title.top = s.title.top ∧
    (applyPreset k s).title.scaleX = s.title.scaleX ∧
    (applyPreset k s).title.scaleY = s.title.scaleY ∧
    (applyPreset k s).title.angle = s.title.angle ∧
    (applyPreset k s).title.fill = s.title.fill ∧
    (applyPreset k s).subtitle.left = s.subtitle.left ∧
    (applyPreset k s).subtitle.top = s.subtitle.top ∧
    (applyPreset k s).subtitle.scaleX = s.subtitle.scaleX ∧
    (applyPreset k s).subtitle.scaleY = s.subtitle.scaleY ∧
    (applyPreset k s).subtitle.angle = s.subtitle.angle ∧
    (applyPreset k s).subtitle.fill = s.subtitle.fill ∧
    (applyPreset k s).title.text = (PRESETS k).1 ∧
    (applyPreset k s).subtitle.text = (PRESETS k).2 :=
  ⟨rfl, rfl, rfl, rfl, rfl, rfl, rfl, rfl, rfl, rfl, rfl, rfl, rfl, rfl⟩

theorem placeTextObjects_geom_congr (s₁ s₂ : SceneState)
    (hcw : s₁.canvasWidth = s₂.canvasWidth) (hch : s₁.canvasHeight = s₂.canvasHeight)
    (hz : s₁.zoom = s₂.zoom) (hw : visibleW s₂ ≠ 0) (hh : visibleH s₂ ≠ 0) :
    (placeTextObjects s₁).title.left = (placeTextObjects s₂).title.left ∧
    (placeTextObjects s₁).title.top = (placeTextObjects s₂).title.top ∧
    (placeTextObjects s₁).subtitle.left = (placeTextObjects s₂).subtitle.left ∧
    (placeTextObjects s₁).subtitle.top = (placeTextObjects s₂).subtitle.top := by
  have hvw : visibleW s₁ = visibleW s₂ := by
    unfold visibleW
    rw [hcw, hz]
  have hvh : visibleH s₁ = visibleH s₂ := by
    unfold visibleH
    rw [hch, hz]
  have h1 : ¬(visibleW s₁ = 0 ∨ visibleH s₁ = 0) := by
    rw [hvw, hvh]
    push_neg
    exact ⟨hw, hh⟩
  have h2 : ¬(visibleW s₂ = 0 ∨ visibleH s₂ = 0) := by
    push_neg
    exact ⟨hw, hh⟩
  obtain ⟨a1, a2, _, a4, a5, _⟩ := placeTextObjects_spec s₁ h1
  obtain ⟨b1, b2, _, b4, b5, _⟩ := placeTextObjects_spec s₂ h2
  simp only [hvw, hvh] at a1 a2 a4 a5
  exact ⟨a1.trans b1.symm, a2.trans b2.symm, a4.trans b4.symm, a5.trans b5.symm⟩

theorem reset_objects (s : SceneState) :
    (reset s).objects = removeLoop s.objects s.objects := by
  rw [reset_eq]
  exact (placeTextObjects_preserves _).1

theorem reset_label_defaults (s : SceneState) :
    (reset s).title.text = (PRESETS PresetKey.ux).1 ∧
    (reset s).title.angle = 0 ∧
    (reset s).title.scaleX = 1 ∧
    (reset s).title.scaleY = 1 ∧
    (reset s).subtitle.text = (PRESETS PresetKey.ux).2 ∧
    (reset s).subtitle.angle = 0 ∧
    (reset s).subtitle.scaleX = 1 ∧
    (reset s).subtitle.scaleY = 1 := by
  rw [reset_eq]
  exact ⟨(placeTextObjects_preserves _).2.2.2.2.1,
         (placeTextObjects_preserves _).2.2.2.2.2.1,
         (placeTextObjects_preserves _).2.2.2.2.2.2.1,
         (placeTextObjects_preserves _).2.2.2.2.2.2.2.1,
         (placeTextObjects_preserves _).2.2.2.2.2.2.2.2.2.1,
         (placeTextObjects_preserves _).2.2.2.2.2.2.2.2.2.2.1,
         (placeTextObjects_preserves _).2.2.2.2.2.2.2.2.2.2.2.1,
         (placeTextObjects_preserves _).2.2.2.2.2.2.2.2.2.2.2.2.1⟩

/-- C2: a single `reset` call removes exactly the objects that are not the
background, the title or the subtitle (after adding 3 sprites the object count
returns to exactly 3), restores both labels' text to the default preset pair and
transform to angle 0 / scale 1, and leaves both labels at the canonical layout
position recomputed from the current viewport size. -/
theorem reset_restores_defaults (s : SceneState) (sprites : List Nat)
    (hobj : s.objects = [bgId, titleId, subtitleId] ++ sprites)
    (hsp : ∀ x ∈ sprites, isProtected x = false)
    (hnd : sprites.Nodup)
    (hw : visibleW s ≠ 0) (hh : visibleH s ≠ 0) :
    (reset s).objects = [bgId, titleId, subtitleId] ∧
    (reset s).objects.length = 3 ∧
    ((reset s).title.text = (PRESETS PresetKey.ux).1 ∧
     (reset s).title.angle = 0 ∧
     (reset s).title.scaleX = 1 ∧
     (reset s).title.scaleY = 1) ∧
    ((reset s).subtitle.text = (PRESETS PresetKey.ux).2 ∧
     (reset s).subtitle.angle = 0 ∧
     (reset s).subtitle.scaleX = 1 ∧
     (reset s).subtitle.scaleY = 1) ∧
    ((reset s).title.left = (placeTextObjects s).title.left ∧
     (reset s).title.top = (placeTextObjects s).title.top) ∧
    ((reset s).subtitle.left = (placeTextObjects s).subtitle.left ∧
     (reset s).subtitle.top = (placeTextObjects s).subtitle.top) := by
  have hndall : s.objects.Nodup := by
    rw [hobj]
    refine List.nodup_append.mpr ⟨by decide, hnd, ?_⟩
    intro x hx hx'
    have hfalse := hsp x hx'
    have htrue : isProtected x = true := by
      simp only [bgId, titleId, subtitleId, List.mem_cons, List.not_mem_nil,
        or_false] at hx
      rcases hx with rfl | rfl | rfl <;> rfl
    rw [htrue] at hfalse
    cases hfalse
  have e1 : ∀ p : Nat → Bool, p bgId = true → p titleId = true → p subtitleId = true →
      List.filter p [bgId, titleId, subtitleId] = [bgId, titleId, subtitleId] := by
    intro p h1 h2 h3
    simp [List.filter_cons, h1, h2, h3]
  have hrem : removeLoop s.objects s.objects = [bgId, titleId, subtitleId] := by
    rw [removeLoop_eq_filter s.objects s.objects hndall, hobj, List.filter_append]
    have e2 : List.filter
        (fun o => isProtected o || !(decide (o ∈ [bgId, titleId, subtitleId] ++ sprites)))
        sprites = [] := by
      refine List.filter_eq_nil_iff.mpr ?_
      intro x hx
      simp [hsp x hx, List.mem_append, hx]
    rw [e1 _ (by simp [isProtected]) (by simp [isProtected]) (by simp [isProtected]), e2]
    simp
  have hobjR : (reset s).objects = [bgId, titleId, subtitleId] :=
    (reset_objects s).trans hrem
  have hdef := reset_label_defaults s
  have hgeo : (reset s).title.left = (placeTextObjects s).title.left ∧
      (reset s).title.top = (placeTextObjects s).title.top ∧
      (reset s).subtitle.left = (placeTextObjects s).subtitle.left ∧
      (reset s).subtitle.top = (placeTextObjects s).subtitle.top := by
    rw [reset_eq]
    exact placeTextObjects_geom_congr _ s rfl rfl rfl hw hh
  refine ⟨hobjR, by rw [hobjR]; rfl,
          ⟨hdef.1, hdef.2.1, hdef.2.2.1, hdef.2.2.2.1⟩,
          ⟨hdef.2.2.2.2.1, hdef.2.2.2.2.2.1, hdef.2.2.2.2.2.2.1, hdef.2.2.2.2.2.2.2⟩,
          ⟨hgeo.1, hgeo.2.1⟩, ⟨hgeo.2.2.1, hgeo.2.2.2⟩⟩

/-- Witness for C2, on a live 800×600 scene (dpr 2) holding exactly three added
sprites with the labels dragged and transformed. -/
theorem reset_restores_defaults_witness :
    ([10, 11, 12] : List Nat).Nodup ∧
    (reset resetSample).objects = [bgId, titleId, subtitleId] ∧
    (reset resetSample).objects.length = 3 :=
  ⟨by decide,
   (reset_restores_defaults resetSample [10, 11, 12] rfl (by decide) (by decide)
      (by norm_num [visibleW, resetSample]) (by norm_num [visibleH, resetSample])).1,
   (reset_restores_defaults resetSample [10, 11, 12] rfl (by decide) (by decide)
      (by norm_num [visibleW, resetSample]) (by norm_num [visibleH, resetSample])).2.1⟩

/-- C7: after `exportPNG` returns, the canvas holds exactly the objects (in the
same stacking order) it held before the call — the temporary theme-colored
background rectangle is inserted, sent to the back, and removed again. -/
theorem exportPNG_object_set_restored (c : ExpCanvas) (bg : Nat)
    (hbg : bg ∉ c.objects) : (exportPNG c bg).objects = c.objects := by
  have h1 : (c.objects ++ [bg]).erase bg = c.objects := by
    rw [List.erase_append_right _ hbg]
    simp
  simp [exportPNG, exportSteps, applyExportOp, h1]

/-- Witness for C7: exporting a canvas holding the three protected objects with
a fresh temporary-background identity restores the object list exactly. -/
theorem exportPNG_object_set_restored_witness :
    (7 ∉ expSample.objects) ∧ (exportPNG expSample 7).objects = expSample.objects :=
  ⟨by decide, exportPNG_object_set_restored expSample 7 (by decide)⟩

/-- C3 counterexample: `exportPNG` explicitly requests a render
(`c.requestRenderAll()`) after inserting the temporary background rectangle and
before serializing the canvas, so the claimed "no render request between
insertion and capture" is false on the code's own call sequence. -/
theorem exportPNG_render_between_insert_capture :
    ¬ noRenderBetween exportSteps isInsertOp isCaptureOp := by
  unfold noRenderBetween
  decide

/-- C3 amended: between inserting the temporary background and capturing there is
exactly one render request (the deliberate flush after deselecting the active
object), and no render is requested between the capture and the removal of the
temporary rectangle. -/
theorem exportPNG_single_flush_before_capture :
    rendersBetween exportSteps isInsertOp isCaptureOp = 1 ∧
    rendersBetween exportSteps isCaptureOp isRemoveOp = 0 ∧
    noRenderBetween exportSteps isCaptureOp isRemoveOp := by
  refine ⟨by decide, by decide, ?_⟩
  unfold noRenderBetween
  decide

theorem nextWidthOf_at_unchanged : nextWidthOf fitSample.rectW fitSample.rawDpr = 320 := by
  norm_num [nextWidthOf, wCssOf, dprOf, fitSample]

theorem nextHeightOf_at_unchanged : nextHeightOf fitSample.rectH fitSample.rawDpr = 360 := by
  norm_num [nextHeightOf, hCssOf, dprOf, fitSample]

/-- C4 counterexample: a fit pass whose recomputed physical size equals the
current one (320×360 container, dpr 1, element already 320×360) still performs
`setZoom` (and the scene/background updates) — the pass is not reduced to the
text-layout step alone, so "backing store and zoom are touched only when the
physical size changed" is false as stated. -/
theorem fit_runs_zoom_unconditionally :
    fitSample.elWidth = nextWidthOf fitSample.rectW fitSample.rawDpr ∧
    fitSample.elHeight = nextHeightOf fitSample.rectH fitSample.rawDpr ∧
    FitEffect.setZoom ∈ fitEffects fitSample ∧
    FitEffect.setCanvasWidth ∈ fitEffects fitSample ∧
    fitEffects fitSample ≠ [FitEffect.placeText] := by
  have h1 := nextWidthOf_at_unchanged
  have h2 := nextHeightOf_at_unchanged
  have he : fitEffects fitSample =
      [FitEffect.setCssSize, FitEffect.setCanvasWidth, FitEffect.setCanvasHeight,
       FitEffect.setZoom, FitEffect.setBgBounds, FitEffect.placeText] := by
    unfold fitEffects
    rw [h1, h2]
    norm_num [fitSample]
  rw [h1, h2, he]
  refine ⟨by norm_num [fitSample], by norm_num [fitSample], ?_, ?_, by decide⟩
  · decide
  · decide

/-- C4 amended: only the direct canvas-element buffer assignments are guarded by
the size-change check; the scene's `setWidth`/`setHeight`/`setZoom`, the
background resize and the text-layout step run unconditionally on every fit
pass. -/
theorem fit_guard_only_element_buffer (st : FitState) :
    (FitEffect.assignElWidth ∈ fitEffects st ↔
      st.elWidth ≠ nextWidthOf st.rectW st.rawDpr) ∧
    (FitEffect.assignElHeight ∈ fitEffects st ↔
      st.elHeight ≠ nextHeightOf st.rectH st.rawDpr) ∧
    FitEffect.setCanvasWidth ∈ fitEffects st ∧
    FitEffect.setCanvasHeight ∈ fitEffects st ∧
    FitEffect.setZoom ∈ fitEffects st ∧
    FitEffect.setBgBounds ∈ fitEffects st ∧
    FitEffect.placeText ∈ fitEffects st := by
  unfold fitEffects
  by_cases h1 : st.elWidth = nextWidthOf st.rectW st.rawDpr <;>
    by_cases h2 : st.elHeight = nextHeightOf st.rectH st.rawDpr <;>
      simp [h1, h2]

/-- C5 counterexample: with a degenerate (zero-size) container and a reported
device pixel ratio of 1/2 (a zoomed-out browser), the backing store computed by
the fit step is 160×180 — smaller than the claimed 320×360 minimum. -/
theorem fit_backing_below_min_for_small_dpr :
    nextWidthOf 0 (1/2) = 160 ∧ nextHeightOf 0 (1/2) = 180 ∧
    nextWidthOf 0 (1/2) < 320 ∧ nextHeightOf 0 (1/2) < 360 := by
  have h1 : nextWidthOf 0 (1/2) = 160 := by
    norm_num [nextWidthOf, wCssOf, dprOf]
  have h2 : nextHeightOf 0 (1/2) = 180 := by
    norm_num [nextHeightOf, hCssOf, dprOf]
  exact ⟨h1, h2, by rw [h1]; norm_num, by rw [h2]; norm_num⟩

/-- C5 amended: the visible size is always clamped to at least 320×360, and for
every container rectangle and every reported device pixel ratio of at least 1,
the backing store is at least 320×360 and in particular never zero or
negative. -/
theorem fit_backing_at_least_min (rectW rectH raw : ℚ) (hraw : 1 ≤ raw) :
    320 ≤ nextWidthOf rectW raw ∧ 360 ≤ nextHeightOf rectH raw ∧
    0 < nextWidthOf rectW raw ∧ 0 < nextHeightOf rectH raw ∧
    320 ≤ wCssOf rectW ∧ 360 ≤ hCssOf rectH := by
  have hraw0 : (0:ℚ) < raw := lt_of_lt_of_le one_pos hraw
  have hd1 : 1 ≤ dprOf raw := by
    unfold dprOf
    rw [if_neg (ne_of_gt hraw0)]
    exact le_min hraw (by norm_num)
  have hw320 : (320:ℤ) ≤ wCssOf rectW := le_max_left _ _
  have hh360 : (360:ℤ) ≤ hCssOf rectH := le_max_left _ _
  have hwq : (320:ℚ) ≤ (wCssOf rectW : ℚ) * dprOf raw := by
    have h320 : (320:ℚ) ≤ (wCssOf rectW : ℚ) := by exact_mod_cast hw320
    calc (320:ℚ) = 320 * 1 := by ring
      _ ≤ (wCssOf rectW : ℚ) * dprOf raw :=
        mul_le_mul h320 hd1 (by norm_num) (by linarith)
  have hhq : (360:ℚ) ≤ (hCssOf rectH : ℚ) * dprOf raw := by
    have h360 : (360:ℚ) ≤ (hCssOf rectH : ℚ) := by exact_mod_cast hh360
    calc (360:ℚ) = 360 * 1 := by ring
      _ ≤ (hCssOf rectH : ℚ) * dprOf raw :=
        mul_le_mul h360 hd1 (by norm_num) (by linarith)
  have hnw : (320:ℤ) ≤ nextWidthOf rectW raw := by
    unfold nextWidthOf
    exact Int.le_floor.mpr (by exact_mod_cast hwq)
  have hnh : (360:ℤ) ≤ nextHeightOf rectH raw := by
    unfold nextHeightOf
    exact Int.le_floor.mpr (by exact_mod_cast hhq)
  exact ⟨hnw, hnh, by linarith, by linarith, hw320, hh360⟩

/-- Witness for C5's amended statement: a zero-size container at dpr 1 still
yields the minimum 320×360 backing store. -/
theorem fit_backing_at_least_min_witness :
    (1:ℚ) ≤ 1 ∧ 320 ≤ nextWidthOf 0 1 ∧ 360 ≤ nextHeightOf 0 1 :=
  ⟨le_refl 1, (fit_backing_at_least_min 0 0 1 (le_refl 1)).1,
   (fit_backing_at_least_min 0 0 1 (le_refl 1)).2.1⟩
